import Mathlib

/-!
Shallow embedding of src/IMDBSuggest.py (class IMDBSuggestion and class
IMDBSearchResult), together with theorems settling the specification
claims about it.

Modelling conventions:
* Python strings are Lean String values; slicing, take/replace are
  modelled on the underlying character lists.
* The HTTP transport (requests.get) is an oracle parameter mapping the
  attempt number to either a transport failure or a response text.
* json.loads(response)['d'] is a decoder parameter mapping the stripped
  response text to Option (List SuggEntry): none models any exception
  raised by json.loads or the missing key (both are caught by the
  try/except in _parse_result), some es models a successful decode.
* Python exceptions that escape to the caller are modelled with
  Except PyErr; the float arithmetic of _compare_string is modelled
  exactly over the rationals.
-/

namespace IMDB

/-- Python exception kinds that can escape the modelled code. -/
inductive PyErr where
  | valueError
  | indexError
  | nameError
  | zeroDivisionError
  | requestException
  | fuelOut
deriving DecidableEq, Repr

/-- Outcome of one requests.get call: either a raised
RequestException or a response with the given body text. -/
inductive Transport where
  | fail
  | ok (text : String)

instance {ε α : Type} [DecidableEq ε] [DecidableEq α] :
    DecidableEq (Except ε α) := fun a b =>
  match a, b with
  | .error e1, .error e2 =>
    match decEq e1 e2 with
    | isTrue h => isTrue (by rw [h])
    | isFalse h => isFalse (fun hh => h (by injection hh))
  | .error _, .ok _ => isFalse (fun hh => Except.noConfusion hh)
  | .ok _, .error _ => isFalse (fun hh => Except.noConfusion hh)
  | .ok a1, .ok a2 =>
    match decEq a1 a2 with
    | isTrue h => isTrue (by rw [h])
    | isFalse h => isFalse (fun hh => h (by injection hh))

/-- MAX_TRY_COUNT = 3 (module constant, line 29). -/
def MAX_TRY_COUNT : Nat := 3

/-- DECREMENT_QUERY_LEN = [15, 10, 5] (module constant, line 30). -/
def DECREMENT_QUERY_LEN : List Nat := [15, 10, 5]

/-- IMDB_SUGGESTS_URL (module constant, line 31). -/
def IMDB_SUGGESTS_URL : String := "https://v2.sg.media-imdb.com/suggests/"

/-- IMDB_TITLE_URL (module constant, line 32). -/
def IMDB_TITLE_URL : String := "https://www.imdb.com/title/"

/-- Python s[:n] on a string: take the first n characters. -/
def pyTakeStr (n : Nat) (s : String) : String :=
  String.mk (s.data.take n)

/-- Python s[a:-1]: characters from index a up to, but excluding, the
last one.  Out-of-range slices yield the empty string, as in Python. -/
def pySliceInner (s : String) (a : Nat) : String :=
  String.mk ((s.data.drop a).dropLast)

/-- Python s.lower() (the inputs it is applied to in this program are
ASCII-only, having passed through _clean_string). -/
def pyLower (s : String) : String :=
  String.mk (s.data.map Char.toLower)

/-- Python s.replace(' ', '_'): the pattern is a single character, so
the replacement is a character map. -/
def pyReplaceSpaceUnderscore (s : String) : String :=
  String.mk (s.data.map (fun c => if c = ' ' then '_' else c))

/-- Python s.startswith(pre). -/
def pyStartsWith (s pre : String) : Bool :=
  List.isPrefixOf pre.data s.data

/-- self.valid_chars = string.ascii_letters + string.digits + '_' + ' '
(line 58). -/
def validChars : List Char :=
  "abcdefghijklmnopqrstuvwxyzABCDEFGHIJKLMNOPQRSTUVWXYZ0123456789_ ".data

/-- Membership in self.valid_chars. -/
def isValidChar (c : Char) : Bool :=
  validChars.contains c

/-- Model of one character's image under
unicodedata.normalize('NFKD', s).encode('ASCII', 'ignore').
NFKD leaves ASCII code points unchanged; for accented Latin letters it
splits off a combining mark which the ASCII encode with errors='ignore'
then drops, leaving the base letter; other non-ASCII characters are
modelled as dropped.  NFKD decomposes character by character, so the
whole-string transformation is the concatenation of per-character
images. -/
def nfkdAsciiChar (c : Char) : List Char :=
  if c.toNat < 128 then [c]
  else if c = 'à' ∨ c = 'á' ∨ c = 'â' ∨ c = 'ä' then ['a']
  else if c = 'è' ∨ c = 'é' ∨ c = 'ê' ∨ c = 'ë' then ['e']
  else if c = 'À' ∨ c = 'Á' then ['A']
  else if c = 'È' ∨ c = 'É' then ['E']
  else if c = 'ñ' then ['n']
  else if c = 'ç' then ['c']
  else []

/-- IMDBSuggestion._clean_string (lines 223-232): NFKD-decompose,
ASCII-encode with errors='ignore', then keep only valid_chars. -/
def cleanString (s : String) : String :=
  String.mk (((s.data.map nfkdAsciiChar).flatten).filter isValidChar)

/-- Count of positions where the two character lists agree, i.e. the
accumulation performed by `for i,j in zip(x, y): if i == j: ...`
(lines 216-219). -/
def matchCount : List Char → List Char → Nat
  | a :: as, b :: bs => (if a = b then 1 else 0) + matchCount as bs
  | _, _ => 0

/-- Round half to even on an exact rational, the rounding Python's
round applies to a tie-free value. -/
def roundHalfEven (q : ℚ) : ℤ :=
  let f := q.floor
  let r := q - f
  if r < 1/2 then f
  else if 1/2 < r then f + 1
  else if f % 2 = 0 then f else f + 1

/-- Python round(v, 2) modelled exactly over ℚ. -/
def pyRound2 (q : ℚ) : ℚ :=
  (roundHalfEven (q * 100) : ℚ) / 100

/-- IMDBSuggestion._compare_string (lines 207-221): x is the first
string as given, y is the cleaned and lowercased second string;
the score is (matching positions)/(max length) * 100 rounded to two
decimals, and Python raises ZeroDivisionError when both are empty. -/
def compareStringQ (string1 string2 : String) : Except PyErr ℚ :=
  let x := string1
  let y := pyLower (cleanString string2)
  let maxLength := max x.length y.length
  if maxLength = 0 then .error .zeroDivisionError
  else .ok (pyRound2 ((matchCount x.data y.data : ℚ) / (maxLength : ℚ) * 100))

/-- One raw entry of the decoded JSON array json.loads(...)['d'].
The fields 'id' and 'l' are read unconditionally by _parse_result;
'y' and 'q' are optional and defaulted there via setdefault. -/
structure SuggEntry where
  id : String
  l : String
  y : Option Int
  q : Option String
deriving DecidableEq, Repr

/-- The rating field of IMDBSearchResult: initialised to the float 0.0
and, were the enrichment ever to succeed, overwritten with the text of
the rating element. -/
inductive RatingVal where
  | num (q : ℚ)
  | str (s : String)
deriving DecidableEq, Repr

/-- IMDBSearchResult (lines 239-263), one object per kept suggestion. -/
structure SearchResult where
  id : String
  label : String
  year : Int
  category : String
  idx : Nat
  genre : List String
  rating : RatingVal
  matchPercent : ℚ
  type : String
deriving DecidableEq, Repr

/-- The entity-type computation in IMDBSearchResult.__init__
(lines 255-260): self.type = '' ; 'Actor' for an id starting with
'nm', 'Title' for an id starting with 'tt'. -/
def typeOfId (id : String) : String :=
  if pyStartsWith id "nm" then "Actor"
  else if pyStartsWith id "tt" then "Title"
  else ""

/-- The try-block of IMDBSearchResult._get_additional_info
(lines 273-278), given the outcome of requests.get on the title URL
(none = RequestException raised).  When the request succeeds, the very
next statement  if debug: pprint.pprint(repsonse)  reads the name
debug, which is not defined in any enclosing scope (line 275), so a
NameError is raised before rating or genre can be assigned.  Either
exception lands in the except-branch of the caller. -/
def getAdditionalInfoBody (fetched : Option String) :
    Except PyErr (String × List String) :=
  match fetched with
  | none => .error .requestException
  | some _text => .error .nameError

/-- IMDBSearchResult._get_additional_info (lines 265-281): only ids
starting with 'tt' trigger a fetch; any exception in the try-block is
caught and the result's fields are left unchanged. -/
def getAdditionalInfo (enrich : String → Option String)
    (r : SearchResult) : SearchResult :=
  if pyStartsWith r.id "tt" then
    match getAdditionalInfoBody (enrich (IMDB_TITLE_URL ++ r.id)) with
    | .ok (rat, gen) => { r with rating := .str rat, genre := gen }
    | .error _ => r
  else r

/-- IMDBSearchResult.__init__ (lines 245-263): field assignments, the
type computation, and the optional enrichment call. -/
def mkSearchResult (id l : String) (y : Int) (q : String) (idx : Nat)
    (matchPercent : ℚ) (fetchAdditionalDetails : Bool)
    (enrich : String → Option String) : SearchResult :=
  let base : SearchResult :=
    { id := id, label := l, year := y, category := q, idx := idx,
      genre := [], rating := .num 0, matchPercent := matchPercent,
      type := typeOfId id }
  if fetchAdditionalDetails then getAdditionalInfo enrich base else base

/-- The for-loop of IMDBSuggestion._parse_result (lines 182-203):
enumerate the decoded entries, break once the 0-based index exceeds
self.top (unless top is -1), default the optional fields, score the
label against the original query and build an IMDBSearchResult with
1-based rank.  Exceptions raised inside (ZeroDivisionError from
_compare_string) are not caught there and propagate. -/
def parseLoop (fetch : Bool) (enrich : String → Option String)
    (top : Int) (origQuery : String) :
    Nat → List SuggEntry → Except PyErr (List SearchResult)
  | _, [] => .ok []
  | idx, e :: rest =>
    if top ≠ -1 ∧ (idx : Int) > top then .ok []
    else
      match compareStringQ origQuery e.l with
      | .error er => .error er
      | .ok mp =>
        match parseLoop fetch enrich top origQuery (idx + 1) rest with
        | .error er => .error er
        | .ok rs =>
          .ok (mkSearchResult e.id e.l (e.y.getD 0) (e.q.getD "unknown")
                (idx + 1) mp fetch enrich :: rs)

/-- IMDBSuggestion._parse_result (lines 149-205): strip the envelope
imdb$<query>( ... ) by dropping len('imdb$') + len(self.query) + 1
leading characters and the final one, decode the JSON, and on any
decode failure return the empty result list; otherwise run the
construction loop. -/
def parseResultModel (jd : String → Option (List SuggEntry))
    (fetch : Bool) (enrich : String → Option String) (top : Int)
    (origQuery query text : String) :
    Except PyErr (List SearchResult) :=
  let startPos := "imdb$".length + query.length + 1
  let stripped := pySliceInner text startPos
  match jd stripped with
  | none => .ok []
  | some entries => parseLoop fetch enrich top origQuery 0 entries

/-- The inner while-loop of search (lines 132-139): advance try_count
past every schedule entry that is not shorter than the current query.
Python evaluates DECREMENT_QUERY_LEN[try_count] before the
try_count < MAX_TRY_COUNT conjunct, so once try_count reaches 3 the
subscript raises IndexError.  The fuel argument is structural
recursion bookkeeping only; callers pass MAX_TRY_COUNT + 1 and
bumpTryCount_ne_fuelOut shows the fuelOut branch is unreachable. -/
def bumpTryCount : Nat → Nat → Nat → Except PyErr Nat
  | 0, _, _ => .error .fuelOut
  | fuel + 1, qlen, tryCount =>
    match DECREMENT_QUERY_LEN[tryCount]? with
    | none => .error .indexError
    | some d =>
      if qlen < d ∧ tryCount < MAX_TRY_COUNT then
        bumpTryCount fuel qlen (tryCount + 1)
      else .ok tryCount

/-- The outer while-loop of search (lines 110-147).  Per iteration:
build the request URL, call the transport (a failed call is logged and
leaves the response variable at its previous value; on the very first
iteration there is no previous value and reading response.text raises
NameError/UnboundLocalError), parse the available response with the
current query, and either return the parsed results or shorten the
query along DECREMENT_QUERY_LEN and retry.  The trace records each
attempt as (request URL, query used).  The oracle is indexed by the
number of requests already issued.  The fuel argument is structural
recursion bookkeeping; callers pass MAX_TRY_COUNT + 1, which
searchLoop_ne_fuelOut shows is never exhausted. -/
def searchLoop (jd : String → Option (List SuggEntry))
    (oracle : Nat → Transport) (enrich : String → Option String)
    (fetch : Bool) (top : Int) (origQuery catPath charIndex : String) :
    Nat → Nat → String → Option String → List (String × String) →
    Except PyErr (List SearchResult) × List (String × String)
  | 0, _, _, _, trace => (.error .fuelOut, trace)
  | fuel + 1, tryCount, query, lastText, trace =>
    let url := IMDB_SUGGESTS_URL ++ catPath ++ charIndex ++ "/"
                 ++ query ++ ".json"
    let trace2 := trace ++ [(url, query)]
    let lastText2 :=
      match oracle trace.length with
      | .fail => lastText
      | .ok text => some text
    match lastText2 with
    | none => (.error .nameError, trace2)
    | some text =>
      match parseResultModel jd fetch enrich top origQuery query text with
      | .error e => (.error e, trace2)
      | .ok results =>
        if results.length = 0 ∧ tryCount < MAX_TRY_COUNT then
          match bumpTryCount (MAX_TRY_COUNT + 1) query.length tryCount with
          | .error e => (.error e, trace2)
          | .ok t2 =>
            match DECREMENT_QUERY_LEN[t2]? with
            | none => (.error .indexError, trace2)
            | some d =>
              searchLoop jd oracle enrich fetch top origQuery catPath
                charIndex fuel (t2 + 1) (pyTakeStr d query) lastText2 trace2
        else (.ok results, trace2)

/-- The untruncated normalised query self.orginal_query (line 102):
cleaned then lowercased. -/
def origQueryOf (rawQuery : String) : String :=
  pyLower (cleanString rawQuery)

/-- The endpoint-bound query self.query (line 103): first 20
characters of the normalised query, spaces replaced by underscores. -/
def endpointQueryOf (rawQuery : String) : String :=
  pyReplaceSpaceUnderscore (pyTakeStr 20 (origQueryOf rawQuery))

/-- IMDBSuggestion.search (lines 60-147).  Returns the Python result
(or escaped exception) together with the trace of issued requests.
The debug flag only gates pretty-printing and is omitted. -/
def searchModel (jd : String → Option (List SuggEntry))
    (oracle : Nat → Transport) (enrich : String → Option String)
    (rawQuery category : String) (top : Int) (fetch : Bool) :
    Except PyErr (List SearchResult) × List (String × String) :=
  match (if category = "All" then some ""
         else if category = "Titles" then some "/titles/"
         else none) with
  | none => (.error .valueError, [])
  | some catPath =>
    let top2 : Int := if top ≤ 0 then 99 else top
    let origQuery := origQueryOf rawQuery
    let query := endpointQueryOf rawQuery
    match query.data with
    | [] => (.error .indexError, [])
    | c :: _ =>
      let charIndex := String.mk [c]
      searchLoop jd oracle enrich fetch top2 origQuery catPath charIndex
        (MAX_TRY_COUNT + 1) 0 query none []

/-! ## Helper lemmas -/

lemma mem_validChars_ascii : ∀ c ∈ validChars, c.toNat < 128 := by decide

lemma isValidChar_mem {c : Char} (h : isValidChar c = true) : c ∈ validChars := by
  unfold isValidChar at h
  exact List.mem_of_elem_eq_true h

lemma isValidChar_ascii {c : Char} (h : isValidChar c = true) : c.toNat < 128 :=
  mem_validChars_ascii c (isValidChar_mem h)

lemma nfkdAsciiChar_valid {c : Char} (h : isValidChar c = true) :
    nfkdAsciiChar c = [c] := by
  unfold nfkdAsciiChar
  rw [if_pos (isValidChar_ascii h)]

lemma cleanString_all_valid (s : String) :
    ∀ c ∈ (cleanString s).data, isValidChar c = true := by
  intro c hc
  exact (List.mem_filter.mp hc).2

lemma flatten_nfkd_of_valid (l : List Char)
    (h : ∀ c ∈ l, isValidChar c = true) :
    (l.map nfkdAsciiChar).flatten = l := by
  induction l with
  | nil => rfl
  | cons a as ih =>
    have ha : nfkdAsciiChar a = [a] := nfkdAsciiChar_valid (h a (by simp))
    simp only [List.map_cons, List.flatten_cons, ha]
    rw [ih (fun c hc => h c (by simp [hc]))]
    rfl

lemma filter_valid_fixed (l : List Char)
    (h : ∀ c ∈ l, isValidChar c = true) :
    ((l.map nfkdAsciiChar).flatten).filter isValidChar = l := by
  rw [flatten_nfkd_of_valid l h]
  exact List.filter_eq_self.mpr h

lemma cleanString_idem (s : String) :
    cleanString (cleanString s) = cleanString s := by
  have h := cleanString_all_valid s
  unfold cleanString
  congr 1
  exact filter_valid_fixed _ h

lemma string_length_data (s : String) : s.length = s.data.length := rfl

lemma pyTakeStr_length (n : Nat) (s : String) :
    (pyTakeStr n s).length = min n s.length := by
  show (s.data.take n).length = min n s.data.length
  exact List.length_take n s.data

lemma pyReplaceSpaceUnderscore_length (s : String) :
    (pyReplaceSpaceUnderscore s).length = s.length := by
  show (s.data.map _).length = s.data.length
  exact List.length_map s.data _

lemma pyLower_length (s : String) : (pyLower s).length = s.length := by
  show (s.data.map _).length = s.data.length
  exact List.length_map s.data _

lemma endpointQueryOf_length (raw : String) :
    (endpointQueryOf raw).length = min 20 (origQueryOf raw).length := by
  unfold endpointQueryOf
  rw [pyReplaceSpaceUnderscore_length, pyTakeStr_length]

/-! ## C5: normalization charset and idempotence -/

/-- C5: for every input string, _clean_string returns only characters
from the accepted set (letters, digits, underscore, space; in
particular no diacritics survive), and it is idempotent. -/
theorem C5_normalize_charset_idempotent (x : String) :
    ((cleanString x).data.all isValidChar) = true ∧
    cleanString (cleanString x) = cleanString x := by
  constructor
  · exact List.all_eq_true.mpr (fun c hc => cleanString_all_valid x c hc)
  · exact cleanString_idem x

/-! ## C6: endpoint-bound query shape -/

/-- C6: for every query, the endpoint-bound form (lowercased, cleaned,
truncated to 20, spaces replaced by underscores) has length at most 20
and contains no space character. -/
theorem C6_endpoint_query_shape (raw : String) :
    (endpointQueryOf raw).length ≤ 20 ∧
    ((endpointQueryOf raw).data.all (fun c => c != ' ')) = true := by
  constructor
  · rw [endpointQueryOf_length]
    exact Nat.min_le_left _ _
  · simp only [endpointQueryOf, pyReplaceSpaceUnderscore, List.all_eq_true]
    intro c hc
    simp only [List.mem_map] at hc
    obtain ⟨a, _, rfl⟩ := hc
    by_cases h : a = ' ' <;> simp [h]

/-! ## Retry-loop helper lemmas -/

lemma parseResultModel_empty (jd : String → Option (List SuggEntry))
    (hjd : ∀ s, jd s = none ∨ jd s = some [])
    (fetch : Bool) (enrich : String → Option String) (top : Int)
    (origQuery query text : String) :
    parseResultModel jd fetch enrich top origQuery query text = .ok [] := by
  unfold parseResultModel
  dsimp only
  rcases hjd (pySliceInner text ("imdb$".length + query.length + 1)) with h | h
  · rw [h]
  · rw [h]
    rfl

/-- Executing the retry loop on an 18-character endpoint query when
the transport always answers and the decoder always yields zero
results: four attempts at truncation lengths 18, 15, 10, 5, then an
empty result list. -/
lemma searchLoop_all_empty_18 (jd : String → Option (List SuggEntry))
    (oracle : Nat → Transport) (enrich : String → Option String)
    (fetch : Bool) (top : Int) (oq cp ci q0 : String)
    (hjd : ∀ s, jd s = none ∨ jd s = some [])
    (horacle : ∀ n, ∃ s, oracle n = Transport.ok s)
    (hlen : q0.length = 18) :
    (searchLoop jd oracle enrich fetch top oq cp ci
        (MAX_TRY_COUNT + 1) 0 q0 none []).1 = .ok [] ∧
    (searchLoop jd oracle enrich fetch top oq cp ci
        (MAX_TRY_COUNT + 1) 0 q0 none []).2.map (fun p => p.2.length)
      = [18, 15, 10, 5] := by
  obtain ⟨s0, h0⟩ := horacle 0
  obtain ⟨s1, h1⟩ := horacle 1
  obtain ⟨s2, h2⟩ := horacle 2
  obtain ⟨s3, h3⟩ := horacle 3
  have hl1 : (pyTakeStr 15 q0).length = 15 := by
    rw [pyTakeStr_length, hlen]
    omega
  have hl2 : (pyTakeStr 10 (pyTakeStr 15 q0)).length = 10 := by
    rw [pyTakeStr_length, hl1]
    omega
  have hl3 : (pyTakeStr 5 (pyTakeStr 10 (pyTakeStr 15 q0))).length = 5 := by
    rw [pyTakeStr_length, hl2]
    omega
  have hb0 : bumpTryCount 4 18 0 = .ok 0 := by decide
  have hb1 : bumpTryCount 4 15 1 = .ok 1 := by decide
  have hb2 : bumpTryCount 4 10 2 = .ok 2 := by decide
  constructor <;>
    simp [searchLoop, MAX_TRY_COUNT, DECREMENT_QUERY_LEN,
      parseResultModel_empty jd hjd, h0, h1, h2, h3,
      hlen, hl1, hl2, hl3, hb0, hb1, hb2]

lemma compareStringQ_isOk (s1 s2 : String) (h : 0 < s1.length) :
    ∃ r, compareStringQ s1 s2 = .ok r := by
  unfold compareStringQ
  dsimp only
  have hne : max s1.length (pyLower (cleanString s2)).length ≠ 0 := by
    have := le_max_left s1.length (pyLower (cleanString s2)).length
    omega
  exact ⟨_, by rw [if_neg hne]⟩

lemma parseLoop_isOk (fetch : Bool) (enrich : String → Option String)
    (top : Int) (oq : String) (hoq : 0 < oq.length) :
    ∀ entries idx, ∃ rs, parseLoop fetch enrich top oq idx entries = .ok rs := by
  intro entries
  induction entries with
  | nil => exact fun idx => ⟨[], rfl⟩
  | cons e rest ih =>
    intro idx
    by_cases hbr : top ≠ -1 ∧ (idx : Int) > top
    · refine ⟨[], ?_⟩
      simp only [parseLoop]
      rw [if_pos hbr]
    · obtain ⟨mp, hmp⟩ := compareStringQ_isOk oq e.l hoq
      obtain ⟨rs, hrs⟩ := ih (idx + 1)
      refine ⟨mkSearchResult e.id e.l (e.y.getD 0) (e.q.getD "unknown")
        (idx + 1) mp fetch enrich :: rs, ?_⟩
      simp only [parseLoop]
      rw [if_neg hbr]
      simp only [hmp, hrs]

lemma parseResultModel_isOk (jd : String → Option (List SuggEntry))
    (fetch : Bool) (enrich : String → Option String) (top : Int)
    (oq query text : String) (hoq : 0 < oq.length) :
    ∃ rs, parseResultModel jd fetch enrich top oq query text = .ok rs := by
  unfold parseResultModel
  dsimp only
  cases hjd : jd (pySliceInner text ("imdb$".length + query.length + 1)) with
  | none => exact ⟨[], rfl⟩
  | some entries =>
    obtain ⟨rs, hrs⟩ := parseLoop_isOk fetch enrich top oq hoq entries 0
    exact ⟨rs, hrs⟩

/-- Whenever the endpoint query still has at least 5 characters, the
inner shortening loop succeeds (never hits the out-of-range subscript
DECREMENT_QUERY_LEN[3]) and lands on a schedule entry of at least 5. -/
lemma bumpTryCount_ok (qlen : Nat) (h5 : 5 ≤ qlen) (t : Nat) (ht : t < 3) :
    ∃ t2 d, bumpTryCount (MAX_TRY_COUNT + 1) qlen t = .ok t2 ∧
      DECREMENT_QUERY_LEN[t2]? = some d ∧ 5 ≤ d ∧ t ≤ t2 := by
  have hn5 : ¬ qlen < 5 := by omega
  interval_cases t
  · by_cases h15 : qlen < 15
    · by_cases h10 : qlen < 10
      · exact ⟨2, 5, by simp [bumpTryCount, DECREMENT_QUERY_LEN, MAX_TRY_COUNT,
          h15, h10, hn5], rfl, by omega, by omega⟩
      · exact ⟨1, 10, by simp [bumpTryCount, DECREMENT_QUERY_LEN, MAX_TRY_COUNT,
          h15, h10], rfl, by omega, by omega⟩
    · exact ⟨0, 15, by simp [bumpTryCount, DECREMENT_QUERY_LEN, MAX_TRY_COUNT,
        h15], rfl, by omega, by omega⟩
  · by_cases h10 : qlen < 10
    · exact ⟨2, 5, by simp [bumpTryCount, DECREMENT_QUERY_LEN, MAX_TRY_COUNT,
        h10, hn5], rfl, by omega, by omega⟩
    · exact ⟨1, 10, by simp [bumpTryCount, DECREMENT_QUERY_LEN, MAX_TRY_COUNT,
        h10], rfl, by omega, by omega⟩
  · exact ⟨2, 5, by simp [bumpTryCount, DECREMENT_QUERY_LEN, MAX_TRY_COUNT,
      hn5], rfl, by omega, by omega⟩

/-- As long as the untruncated query used for scoring is nonempty, the
endpoint query keeps at least 5 characters, and a response text is
available (from this or an earlier attempt), the retry loop finishes
with an ordinary result list and raises nothing. -/
lemma searchLoop_isOk (jd : String → Option (List SuggEntry))
    (oracle : Nat → Transport) (enrich : String → Option String)
    (fetch : Bool) (top : Int) (oq cp ci : String) (hoq : 0 < oq.length) :
    ∀ (fuel t : Nat) (query : String) (lastText : Option String)
      (trace : List (String × String)),
      t ≤ 3 → 4 ≤ fuel + t → 5 ≤ query.length →
      ((∃ s, lastText = some s) ∨ (∃ s, oracle trace.length = Transport.ok s)) →
      ∃ rs tr, searchLoop jd oracle enrich fetch top oq cp ci
        fuel t query lastText trace = (.ok rs, tr) := by
  intro fuel
  induction fuel with
  | zero =>
    intro t query lastText trace ht hf h5 hlast
    exact ((by omega : False)).elim
  | succ n ih =>
    intro t query lastText trace ht hf h5 hlast
    simp only [searchLoop]
    have hsome : ∃ text,
        (match oracle trace.length with
          | Transport.fail => lastText
          | Transport.ok text => some text) = some text := by
      rcases hlast with ⟨s, hs⟩ | ⟨s, hs⟩
      · cases horc : oracle trace.length
        · exact ⟨s, by rw [hs]⟩
        · exact ⟨_, rfl⟩
      · rw [hs]
        exact ⟨s, rfl⟩
    obtain ⟨text, htext⟩ := hsome
    simp only [htext]
    obtain ⟨results, hres⟩ :=
      parseResultModel_isOk jd fetch enrich top oq query text hoq
    simp only [hres]
    by_cases hcond : results.length = 0 ∧ t < MAX_TRY_COUNT
    · rw [if_pos hcond]
      have ht3 : t < 3 := hcond.2
      obtain ⟨t2, d, hbump, hd, hd5, ht2⟩ := bumpTryCount_ok query.length h5 t ht3
      simp only [hbump, hd]
      have ht2lt : t2 < 3 := by
        by_contra hc
        rw [List.getElem?_eq_none (by simp [DECREMENT_QUERY_LEN]; omega)] at hd
        cases hd
      apply ih (t2 + 1) (pyTakeStr d query) (some text) _
      · omega
      · omega
      · rw [pyTakeStr_length]
        omega
      · exact Or.inl ⟨text, rfl⟩
    · rw [if_neg hcond]
      exact ⟨results, _, rfl⟩

/-! ## C1: what search absorbs, amended -/

/-- C1 amended: for every call with a valid category whose endpoint
query has at least 5 characters and whose first transport attempt
returns a response, search returns an ordinary (possibly empty) result
list and no exception, whatever the JSON decoder does (decode failure
or any decoded list of well-formed entries) and whatever later
transport attempts do.  The original claim fails when the first
transport attempt itself raises (C1 counterexample), when the cleaned
query is empty (C10), and when the endpoint query is shorter than 5
characters and all attempts are empty (IndexError at
DECREMENT_QUERY_LEN[3]). -/
theorem C1_absorbed_amended (jd : String → Option (List SuggEntry))
    (oracle : Nat → Transport) (enrich : String → Option String)
    (raw cat : String) (top : Int) (fetch : Bool)
    (hcat : cat = "All" ∨ cat = "Titles")
    (hlen : 5 ≤ (endpointQueryOf raw).length)
    (hfirst : ∃ s, oracle 0 = Transport.ok s) :
    ∃ rs, (searchModel jd oracle enrich raw cat top fetch).1 = .ok rs := by
  have hoq : 0 < (origQueryOf raw).length := by
    have h := endpointQueryOf_length raw
    omega
  rcases hdata : (endpointQueryOf raw).data with _ | ⟨c, rest⟩
  · exfalso
    have h0 : (endpointQueryOf raw).length = 0 := by
      rw [string_length_data, hdata]
      rfl
    omega
  · have hfirst' : (∃ s, (none : Option String) = some s) ∨
        (∃ s, oracle ([] : List (String × String)).length = Transport.ok s) := by
      right
      simpa using hfirst
    rcases hcat with rfl | rfl
    · have heq : searchModel jd oracle enrich raw "All" top fetch
          = searchLoop jd oracle enrich fetch (if top ≤ 0 then 99 else top)
              (origQueryOf raw) "" (String.mk [c]) (MAX_TRY_COUNT + 1) 0
              (endpointQueryOf raw) none [] := by
        unfold searchModel
        dsimp only
        rw [hdata]
        rfl
      obtain ⟨rs, tr, hrun⟩ := searchLoop_isOk jd oracle enrich fetch
        (if top ≤ 0 then 99 else top) (origQueryOf raw) "" (String.mk [c]) hoq
        (MAX_TRY_COUNT + 1) 0 (endpointQueryOf raw) none []
        (by omega) (by simp [MAX_TRY_COUNT]) hlen hfirst'
      exact ⟨rs, by rw [heq, hrun]⟩
    · have heq : searchModel jd oracle enrich raw "Titles" top fetch
          = searchLoop jd oracle enrich fetch (if top ≤ 0 then 99 else top)
              (origQueryOf raw) "/titles/" (String.mk [c]) (MAX_TRY_COUNT + 1) 0
              (endpointQueryOf raw) none [] := by
        unfold searchModel
        dsimp only
        rw [hdata]
        rfl
      obtain ⟨rs, tr, hrun⟩ := searchLoop_isOk jd oracle enrich fetch
        (if top ≤ 0 then 99 else top) (origQueryOf raw) "/titles/"
        (String.mk [c]) hoq
        (MAX_TRY_COUNT + 1) 0 (endpointQueryOf raw) none []
        (by omega) (by simp [MAX_TRY_COUNT]) hlen hfirst'
      exact ⟨rs, by rw [heq, hrun]⟩

/-- Witness for the amended C1 at a concrete five-letter query with a
failing decoder and an always-answering transport. -/
theorem C1_absorbed_amended_witness :
    5 ≤ (endpointQueryOf "abcde").length ∧
    ∃ rs, (searchModel (fun _ => none) (fun _ => Transport.ok "")
      (fun _ => none) "abcde" "All" 99 false).1 = .ok rs :=
  ⟨by decide,
    C1_absorbed_amended (fun _ => none) (fun _ => Transport.ok "")
      (fun _ => none) "abcde" "All" 99 false (Or.inl rfl) (by decide)
      ⟨"", rfl⟩⟩

/-! ## C4: shortening schedule and termination -/

/-- C4: for a query whose endpoint-bound form has 18 characters, when
every attempt's transport answers and every attempt decodes to zero
results, search issues exactly four requests whose query lengths
follow the fixed schedule 18, 15, 10, 5 (the initial attempt plus the
retry budget of 3 extra attempts) and then terminates with the empty
result list. -/
theorem C4_shortening_schedule (jd : String → Option (List SuggEntry))
    (oracle : Nat → Transport) (enrich : String → Option String)
    (raw cat : String) (top : Int) (fetch : Bool)
    (hcat : cat = "All" ∨ cat = "Titles")
    (hlen : (endpointQueryOf raw).length = 18)
    (horacle : ∀ n, ∃ s, oracle n = Transport.ok s)
    (hjd : ∀ s, jd s = none ∨ jd s = some []) :
    (searchModel jd oracle enrich raw cat top fetch).1 = .ok [] ∧
    (searchModel jd oracle enrich raw cat top fetch).2.map
      (fun p => p.2.length) = [18, 15, 10, 5] := by
  rcases hdata : (endpointQueryOf raw).data with _ | ⟨c, rest⟩
  · exfalso
    have h0 : (endpointQueryOf raw).length = 0 := by
      rw [string_length_data, hdata]
      rfl
    omega
  · rcases hcat with rfl | rfl
    · have heq : searchModel jd oracle enrich raw "All" top fetch
          = searchLoop jd oracle enrich fetch (if top ≤ 0 then 99 else top)
              (origQueryOf raw) "" (String.mk [c]) (MAX_TRY_COUNT + 1) 0
              (endpointQueryOf raw) none [] := by
        unfold searchModel
        dsimp only
        rw [hdata]
        rfl
      rw [heq]
      exact searchLoop_all_empty_18 jd oracle enrich fetch _ _ _ _ _
        hjd horacle hlen
    · have heq : searchModel jd oracle enrich raw "Titles" top fetch
          = searchLoop jd oracle enrich fetch (if top ≤ 0 then 99 else top)
              (origQueryOf raw) "/titles/" (String.mk [c]) (MAX_TRY_COUNT + 1) 0
              (endpointQueryOf raw) none [] := by
        unfold searchModel
        dsimp only
        rw [hdata]
        rfl
      rw [heq]
      exact searchLoop_all_empty_18 jd oracle enrich fetch _ _ _ _ _
        hjd horacle hlen

/-- Witness for C4 at a concrete 18-character query with an
always-answering transport and an always-empty decode. -/
theorem C4_shortening_schedule_witness :
    (endpointQueryOf "abcdefghijklmnopqr").length = 18 ∧
    ((searchModel (fun _ => none) (fun _ => Transport.ok "")
        (fun _ => none) "abcdefghijklmnopqr" "All" 99 false).1 = .ok [] ∧
      (searchModel (fun _ => none) (fun _ => Transport.ok "")
        (fun _ => none) "abcdefghijklmnopqr" "All" 99 false).2.map
        (fun p => p.2.length) = [18, 15, 10, 5]) :=
  ⟨by decide,
    C4_shortening_schedule (fun _ => none) (fun _ => Transport.ok "")
      (fun _ => none) "abcdefghijklmnopqr" "All" 99 false (Or.inl rfl)
      (by decide) (fun _ => ⟨"", rfl⟩) (fun _ => Or.inl rfl)⟩

/-! ## Scoring helper lemmas -/

lemma matchCount_le_left : ∀ xs ys : List Char, matchCount xs ys ≤ xs.length := by
  intro xs
  induction xs with
  | nil => intro ys; cases ys <;> simp [matchCount]
  | cons a as ih =>
    intro ys
    cases ys with
    | nil => simp [matchCount]
    | cons b bs =>
      have h := ih bs
      show (if a = b then 1 else 0) + matchCount as bs ≤ as.length + 1
      split <;> omega

lemma matchCount_self : ∀ xs : List Char, matchCount xs xs = xs.length := by
  intro xs
  induction xs with
  | nil => rfl
  | cons a as ih =>
    show (if a = a then 1 else 0) + matchCount as as = as.length + 1
    rw [if_pos rfl, ih]
    omega

lemma ratFloor_eq_floor (q : ℚ) : q.floor = ⌊q⌋ :=
  (Rat.floor_def' q).trans Rat.floor_def.symm

lemma roundHalfEven_nonneg {q : ℚ} (h : 0 ≤ q) : 0 ≤ roundHalfEven q := by
  unfold roundHalfEven
  dsimp only
  rw [ratFloor_eq_floor]
  have hf : (0 : ℤ) ≤ ⌊q⌋ := Int.floor_nonneg.mpr h
  split_ifs <;> omega

lemma roundHalfEven_le_intCast {q : ℚ} {B : ℤ} (h : q ≤ (B : ℚ)) :
    roundHalfEven q ≤ B := by
  unfold roundHalfEven
  dsimp only
  rw [ratFloor_eq_floor]
  have hfB : ⌊q⌋ ≤ B := by
    have h2 := Int.floor_le_floor h
    rwa [Int.floor_intCast] at h2
  have hfq : (⌊q⌋ : ℚ) ≤ q := Int.floor_le q
  split_ifs with h1 h2 h3
  · exact hfB
  · have hlt : (⌊q⌋ : ℚ) < (B : ℚ) := by
      have : (1 : ℚ)/2 < q - ⌊q⌋ := h2
      linarith
    have : ⌊q⌋ < B := by exact_mod_cast hlt
    omega
  · exact hfB
  · have heq : q - ⌊q⌋ = 1/2 := le_antisymm (not_lt.mp h2) (not_lt.mp h1)
    have hlt : (⌊q⌋ : ℚ) < (B : ℚ) := by linarith
    have : ⌊q⌋ < B := by exact_mod_cast hlt
    omega

lemma pyRound2_nonneg {q : ℚ} (h : 0 ≤ q) : 0 ≤ pyRound2 q := by
  unfold pyRound2
  have h1 : (0 : ℤ) ≤ roundHalfEven (q * 100) :=
    roundHalfEven_nonneg (by positivity)
  have h2 : (0 : ℚ) ≤ (roundHalfEven (q * 100) : ℚ) := by exact_mod_cast h1
  positivity

lemma pyRound2_le_100 {q : ℚ} (h : q ≤ 100) : pyRound2 q ≤ 100 := by
  unfold pyRound2
  have h1 : roundHalfEven (q * 100) ≤ (10000 : ℤ) := by
    apply roundHalfEven_le_intCast
    push_cast
    linarith
  have h2 : (roundHalfEven (q * 100) : ℚ) ≤ 10000 := by exact_mod_cast h1
  linarith

lemma pyRound2_100 : pyRound2 100 = 100 := by
  have hfloor : ⌊(100 * 100 : ℚ)⌋ = 10000 := by norm_num
  unfold pyRound2 roundHalfEven
  dsimp only
  rw [ratFloor_eq_floor, hfloor]
  norm_num

lemma pyRound2_0 : pyRound2 0 = 0 := by
  have hfloor : ⌊(0 * 100 : ℚ)⌋ = 0 := by norm_num
  unfold pyRound2 roundHalfEven
  dsimp only
  rw [ratFloor_eq_floor, hfloor]
  norm_num

lemma compareStringQ_eval_zero (s1 s2 : String) (m : Nat)
    (hmc : matchCount s1.data (pyLower (cleanString s2)).data = 0)
    (hmax : max s1.length (pyLower (cleanString s2)).length = m)
    (hm : m ≠ 0) :
    compareStringQ s1 s2 = .ok 0 := by
  unfold compareStringQ
  dsimp only
  rw [hmc, hmax, if_neg hm]
  norm_num [pyRound2_0]

lemma score_nonneg (cnt m : Nat) :
    0 ≤ pyRound2 ((cnt : ℚ) / (m : ℚ) * 100) := by
  apply pyRound2_nonneg
  positivity

lemma score_le_100 (cnt m : Nat) (hcnt : cnt ≤ m) (hm : 0 < m) :
    pyRound2 ((cnt : ℚ) / (m : ℚ) * 100) ≤ 100 := by
  apply pyRound2_le_100
  have hm0 : (0 : ℚ) < (m : ℚ) := by exact_mod_cast hm
  have h1 : (cnt : ℚ) / (m : ℚ) ≤ 1 :=
    div_le_one_of_le₀ (by exact_mod_cast hcnt) (le_of_lt hm0)
  nlinarith

lemma score_self (l : Nat) (hl : 0 < l) :
    pyRound2 ((l : ℚ) / (l : ℚ) * 100) = 100 := by
  have hne : (l : ℚ) ≠ 0 := by
    exact_mod_cast hl.ne'
  rw [div_self hne, one_mul]
  exact pyRound2_100


/-! ## C3: match score -/

/-- C3 counterexample: the strings é and e are identical after
normalization, yet _compare_string scores them 0, not 100, because the
first argument is used as given rather than normalized; and on the
empty pair the function raises ZeroDivisionError instead of producing
a value in the range 0 to 100. -/
theorem C3_counterexample :
    cleanString "é" = cleanString "e" ∧
    compareStringQ "é" "e" = .ok 0 ∧
    compareStringQ "" "" = .error .zeroDivisionError := by
  refine ⟨by decide, ?_, by decide⟩
  exact compareStringQ_eval_zero "é" "e" 1 (by decide) (by decide) (by decide)

/-- C3 amended: whenever the first string or the cleaned lowercased
second string is nonempty, _compare_string returns (does not raise)
the count of positions at which the first string, taken as given,
agrees with the cleaned lowercased second string, divided by the
longer of the two lengths, times 100, rounded to two decimals; the
value lies in the range 0 to 100 and is exactly 100 when the first
string equals the cleaned lowercased second string.  On the pair of
abc and xyz the score is 0. -/
theorem C3_score_amended :
    (∀ s1 s2 : String,
      0 < max s1.length (pyLower (cleanString s2)).length →
      ∃ r, compareStringQ s1 s2 = .ok r ∧
        r = pyRound2 ((matchCount s1.data (pyLower (cleanString s2)).data : ℚ) /
              ((max s1.length (pyLower (cleanString s2)).length : Nat) : ℚ) * 100) ∧
        0 ≤ r ∧ r ≤ 100 ∧
        (s1 = pyLower (cleanString s2) → r = 100)) ∧
    compareStringQ "abc" "xyz" = .ok 0 := by
  constructor
  · intro s1 s2 hpos
    refine ⟨_, ?_, rfl, ?_, ?_, ?_⟩
    · unfold compareStringQ
      rw [if_neg (Nat.pos_iff_ne_zero.mp hpos)]
    · exact score_nonneg _ _
    · apply score_le_100
      · calc matchCount s1.data (pyLower (cleanString s2)).data
            ≤ s1.data.length := matchCount_le_left _ _
          _ = s1.length := (string_length_data s1).symm
          _ ≤ max s1.length (pyLower (cleanString s2)).length := le_max_left _ _
      · exact hpos
    · intro hid
      rw [← hid, max_self, matchCount_self, ← string_length_data]
      apply score_self
      rw [← hid, max_self] at hpos
      exact hpos
  · exact compareStringQ_eval_zero "abc" "xyz" 3 (by decide) (by decide) (by decide)

/-- Witness for the amended C3 at a nonempty pair. -/
theorem C3_score_amended_witness :
    0 < max (String.length "a") (pyLower (cleanString "a")).length ∧
    (∃ r, compareStringQ "a" "a" = .ok r ∧
      r = pyRound2 ((matchCount ("a" : String).data
            (pyLower (cleanString "a")).data : ℚ) /
            ((max (String.length "a") (pyLower (cleanString "a")).length : Nat) : ℚ) * 100) ∧
      0 ≤ r ∧ r ≤ 100 ∧
      (("a" : String) = pyLower (cleanString "a") → r = 100)) :=
  ⟨by decide, C3_score_amended.1 "a" "a" (by decide)⟩

/-! ## C7: entity kind from identifier prefix -/

lemma isPrefixOf_pair (a b : Char) (l : List Char) :
    List.isPrefixOf [a, b] l = true ↔ l.take 2 = [a, b] := by
  rw [ List.isPrefixOf_iff_prefix, List.prefix_iff_eq_take]
  simp [eq_comm]

lemma getAdditionalInfo_type (enrich : String → Option String)
    (r : SearchResult) : (getAdditionalInfo enrich r).type = r.type := by
  unfold getAdditionalInfo getAdditionalInfoBody
  cases enrich (IMDB_TITLE_URL ++ r.id) <;> simp

lemma mkSearchResult_type (id l : String) (y : Int) (q : String)
    (idx : Nat) (mp : ℚ) (fetch : Bool) (enrich : String → Option String) :
    (mkSearchResult id l y q idx mp fetch enrich).type = typeOfId id := by
  unfold mkSearchResult
  cases fetch
  · rfl
  · simp only [if_pos]
    rw [getAdditionalInfo_type]

lemma bool_eq_of_iff {a b : Bool} (h : a = true ↔ b = true) : a = b := by
  cases a <;> cases b <;> simp_all

lemma typeOfId_take2 (id id2 : String) (h : id.data.take 2 = id2.data.take 2) :
    typeOfId id = typeOfId id2 := by
  unfold typeOfId pyStartsWith
  have hdnm : ("nm" : String).data = ['n', 'm'] := rfl
  have hdtt : ("tt" : String).data = ['t', 't'] := rfl
  have hnm : List.isPrefixOf "nm".data id.data
      = List.isPrefixOf "nm".data id2.data := by
    rw [hdnm]
    refine bool_eq_of_iff ((isPrefixOf_pair 'n' 'm' id.data).trans
      (Iff.trans ?_ (isPrefixOf_pair 'n' 'm' id2.data).symm))
    rw [h]
  have htt : List.isPrefixOf "tt".data id.data
      = List.isPrefixOf "tt".data id2.data := by
    rw [hdtt]
    refine bool_eq_of_iff ((isPrefixOf_pair 't' 't' id.data).trans
      (Iff.trans ?_ (isPrefixOf_pair 't' 't' id2.data).symm))
    rw [h]
  rw [hnm, htt]

/-- C7: the entity kind of a constructed result is determined solely
by the identifier's two-letter prefix: the code represents the Person
kind by the string Actor, the Title kind by Title, and the Unknown
kind by the empty string. -/
theorem C7_entity_kind (id l : String) (y : Int) (q : String) (idx : Nat)
    (mp : ℚ) (fetch : Bool) (enrich : String → Option String) :
    (pyStartsWith id "nm" = true →
      (mkSearchResult id l y q idx mp fetch enrich).type = "Actor") ∧
    (pyStartsWith id "nm" = false → pyStartsWith id "tt" = true →
      (mkSearchResult id l y q idx mp fetch enrich).type = "Title") ∧
    (pyStartsWith id "nm" = false → pyStartsWith id "tt" = false →
      (mkSearchResult id l y q idx mp fetch enrich).type = "") ∧
    (∀ id2, id.data.take 2 = id2.data.take 2 →
      (mkSearchResult id l y q idx mp fetch enrich).type =
        (mkSearchResult id2 l y q idx mp fetch enrich).type) := by
  refine ⟨?_, ?_, ?_, ?_⟩
  · intro h
    rw [mkSearchResult_type]
    unfold typeOfId
    rw [if_pos h]
  · intro h1 h2
    rw [mkSearchResult_type]
    unfold typeOfId
    rw [if_neg (by simp [h1]), if_pos h2]
  · intro h1 h2
    rw [mkSearchResult_type]
    unfold typeOfId
    rw [if_neg (by simp [h1]), if_neg (by simp [h2])]
  · intro id2 h
    rw [mkSearchResult_type, mkSearchResult_type]
    exact typeOfId_take2 id id2 h

/-- Witness for C7 at a concrete Person-prefixed identifier. -/
theorem C7_entity_kind_witness :
    pyStartsWith "nm0000353" "nm" = true ∧
    (mkSearchResult "nm0000353" "Tom Hanks" 0 "unknown" 1 0 false
      (fun _ => none)).type = "Actor" :=
  ⟨by decide,
    (C7_entity_kind "nm0000353" "Tom Hanks" 0 "unknown" 1 0 false
      (fun _ => none)).1 (by decide)⟩

/-! ## C8: enrichment failure keeps defaults, no exception -/

/-- C8: when enrichment is requested, the result is always constructed
and returned (the model is a total function: every exception inside
_get_additional_info is caught by its except-branch) with the default
rating 0.0 and empty genre list.  In this code every fetch outcome is
a failure: a transport error raises RequestException, and a successful
fetch raises NameError at the undefined name debug before rating or
genre can be assigned, so the defaults survive in all cases. -/
theorem C8_enrichment_failure_defaults (enrich : String → Option String)
    (id l : String) (y : Int) (q : String) (idx : Nat) (mp : ℚ) :
    (mkSearchResult id l y q idx mp true enrich).rating = RatingVal.num 0 ∧
    (mkSearchResult id l y q idx mp true enrich).genre = [] := by
  unfold mkSearchResult getAdditionalInfo getAdditionalInfoBody
  cases h : pyStartsWith id "tt"
  · simp [h]
  · rcases henr : enrich (IMDB_TITLE_URL ++ id) with _ | t <;> simp [h, henr]

/-! ## C9: invalid category fails fast -/

/-- C9: a category other than All or Titles makes search raise
ValueError immediately, with no request constructed or issued
(the request trace is empty), whatever the other arguments are. -/
theorem C9_bad_category (jd : String → Option (List SuggEntry))
    (oracle : Nat → Transport) (enrich : String → Option String)
    (raw category : String) (top : Int) (fetch : Bool)
    (h1 : category ≠ "All") (h2 : category ≠ "Titles") :
    searchModel jd oracle enrich raw category top fetch =
      (.error .valueError, []) := by
  unfold searchModel
  rw [if_neg h1, if_neg h2]

/-- Witness for C9 at category Bogus. -/
theorem C9_bad_category_witness :
    ("Bogus" : String) ≠ "All" ∧
    searchModel (fun _ => none) (fun _ => Transport.fail) (fun _ => none)
      "Captain" "Bogus" 5 true = (.error .valueError, []) :=
  ⟨by decide,
    C9_bad_category (fun _ => none) (fun _ => Transport.fail) (fun _ => none)
      "Captain" "Bogus" 5 true (by decide) (by decide)⟩

/-! ## C10: empty cleaned query raises before any request -/

/-- C10: a query whose cleaned form is empty (for instance one made
only of punctuation) makes search raise IndexError at the
first-character extraction self.query[0], before any request is
constructed, instead of returning an empty list. -/
theorem C10_empty_clean_query (jd : String → Option (List SuggEntry))
    (oracle : Nat → Transport) (enrich : String → Option String)
    (raw category : String) (top : Int) (fetch : Bool)
    (hcat : category = "All" ∨ category = "Titles")
    (h : cleanString raw = "") :
    searchModel jd oracle enrich raw category top fetch =
      (.error .indexError, []) := by
  have hq : endpointQueryOf raw = "" := by
    unfold endpointQueryOf origQueryOf
    rw [h]
    rfl
  rcases hcat with rfl | rfl <;>
  · unfold searchModel
    rw [hq]
    try rfl

/-- C2: evaluation exhibiting the off-by-one in the result cap.  With
top = 5 and a response decoding to 7 suggestions, search returns 6
results ranked 1 to 6, because the loop in _parse_result breaks only
once the 0-based index exceeds self.top, keeping top + 1 items; the
docstring of search (top: return no. of results) and the spec promise
at most 5 results ranked 1 to 5. -/
theorem C2_top_cap_eval :
    ((searchModel
        (fun _ => some [
          { id := "tt0000001", l := "a", y := none, q := none },
          { id := "tt0000002", l := "a", y := none, q := none },
          { id := "tt0000003", l := "a", y := none, q := none },
          { id := "tt0000004", l := "a", y := none, q := none },
          { id := "tt0000005", l := "a", y := none, q := none },
          { id := "tt0000006", l := "a", y := none, q := none },
          { id := "tt0000007", l := "a", y := none, q := none }])
        (fun _ => Transport.ok "x") (fun _ => none) "a" "All" 5 false).1.map
      (fun rs => (rs.length, rs.map SearchResult.idx)))
      = Except.ok (6, [1, 2, 3, 4, 5, 6]) := by
  decide

/-- C1 counterexample: with a valid category, when the transport fails
on the very first attempt (requests.get raises), search does not
absorb the failure: the local variable response was never assigned, so
line 127 raises NameError, which escapes to the caller. -/
theorem C1_counterexample :
    (searchModel (fun _ => none) (fun _ => Transport.fail) (fun _ => none)
      "captain" "All" 99 false).1 = .error .nameError := by
  decide

/-- Witness for C10 at an all-punctuation query. -/
theorem C10_empty_clean_query_witness :
    cleanString "?!?" = "" ∧
    searchModel (fun _ => some []) (fun _ => Transport.ok "x")
      (fun _ => none) "?!?" "All" 5 false = (.error .indexError, []) :=
  ⟨by decide,
    C10_empty_clean_query (fun _ => some []) (fun _ => Transport.ok "x")
      (fun _ => none) "?!?" "All" 5 false (Or.inl rfl) (by decide)⟩

end IMDB
